import Mathlib

/-!
# Verification of the bedrock-pr-reviewer core (bot.ts and sopRetriever.ts)

Shallow embedding of the two source files:

* `src/bot.ts` — the `Bot` class: `chat` (public, total) delegates to the
  private `chat_`, which builds a Bedrock `Converse` request, sends it with
  bounded retry, and normalizes the response content items into a text
  result plus correlation identifiers.
* `src/sopRetriever.ts` — lazy initialization of an embedding encoder and a
  Pinecone client/index, `embedText`, `getRelevantSops` (top-3 retrieval,
  degrading to `[]` on any failure), and `formatSopsForPrompt`.

External effects (the Bedrock send, `JSON.stringify`, the encoder pipeline,
the Pinecone constructors and query) are passed in as `Except`- or
`Option`-valued parameters: `.error`/`none` models a thrown exception at
that call site. JavaScript numbers are modelled as `ℚ`; the embedded code
performs no arithmetic on them other than decimal formatting (`toFixed`).
JavaScript string truthiness (`if (s)`) is modelled explicitly: an optional
string is truthy iff it is present and non-empty.
-/

namespace BedrockPrReviewer

/-- JS truthiness of an optional string: defined and non-empty. -/
def jsTruthy : Option String → Bool
  | some s => s ≠ ""
  | none => false

/-! ## bot.ts -/

/-- Structure `Ids` from bot.ts: optional correlation identifiers copied from the
response metadata. -/
structure Ids where
  parentMessageId : Option String
  conversationId : Option String
deriving Repr, DecidableEq

/-- The empty `Ids` value `{}` (both fields absent). -/
def Ids.empty : Ids := ⟨none, none⟩

/-- Structure `JsonSchema` from bot.ts; `parameters` (`Record<string, any>`) is kept
abstract in the type parameter `π`. -/
structure JsonSchema (π : Type) where
  name : String
  description : String
  parameters : π
deriving Repr, DecidableEq

/-- One content item of a Bedrock `Converse` response message: an optional
text fragment and an optional tool-use block whose `input` payload has the
abstract type `α`. -/
structure ContentItem (α : Type) where
  text : Option String := none
  toolUse : Option α := none
deriving Repr, DecidableEq

/-- The `message` field of the response output: `content` may be absent
(`response.output.message.content || []`). -/
structure OutputMessage (α : Type) where
  content : Option (List (ContentItem α))
deriving Repr, DecidableEq

/-- The `output` field of a `ConverseCommandOutput`. -/
structure ConverseOutput (α : Type) where
  message : Option (OutputMessage α)
deriving Repr, DecidableEq

/-- The `$metadata` of an SDK response; both identifiers are optional. -/
structure ResponseMetadata where
  requestId : Option String := none
  cfId : Option String := none
deriving Repr, DecidableEq

/-- A `ConverseCommandOutput`: optional `output` plus `$metadata`. -/
structure ConverseCommandOutput (α : Type) where
  output : Option (ConverseOutput α)
  metadata : ResponseMetadata
deriving Repr, DecidableEq

/-- One step of the normalization loop in `chat_` (bot.ts lines 127-139):
`if (item.text) responseText += item.text; else if (item.toolUse)` replace
the accumulator with `JSON.stringify(item.toolUse.input)`, or with the
empty string when serialization throws (`stringify` returns `none`). -/
def processContentItem (stringify : α → Option String)
    (acc : String) (item : ContentItem α) : String :=
  if jsTruthy item.text then acc ++ item.text.getD ""
  else
    match item.toolUse with
    | some u =>
      match stringify u with
      | some s => s
      | none => ""
    | none => acc

/-- The whole normalization loop: fold `processContentItem` over the content
items in response order, starting from the empty accumulator. -/
def normalizeContent (stringify : α → Option String)
    (items : List (ContentItem α)) : String :=
  items.foldl (processContentItem stringify) ""

/-- Extraction of `responseText` from the optional response (bot.ts lines
123-142): absent response, absent `output` or absent `message` all yield
the empty string. -/
def responseTextOf (stringify : α → Option String)
    (response : Option (ConverseCommandOutput α)) : String :=
  match response with
  | some r =>
    match r.output with
    | some o =>
      match o.message with
      | some m => normalizeContent stringify (m.content.getD [])
      | none => ""
    | none => ""
  | none => ""

/-- The tail of `chat_` after the guarded send: the send outcome is caught
in-line (`try { response = await pRetry(...) } catch { info(...) }`), so a
failed send leaves `response` undefined; then the text is normalized and
the correlation identifiers are copied from `$metadata`. -/
def chatBody (stringify : α → Option String)
    (sendOutcome : Except String (ConverseCommandOutput α)) : String × Ids :=
  let response : Option (ConverseCommandOutput α) := sendOutcome.toOption
  (responseTextOf stringify response,
   ⟨response.bind (fun r => r.metadata.requestId),
    response.bind (fun r => r.metadata.cfId)⟩)

/-- The private `chat_` (bot.ts lines 51-151). An empty message
short-circuits to an empty text with empty identifiers. In debug mode with a schema present, the log
line interpolates `JSON.stringify(jsonSchema)` outside any try block, so a
schema that fails to serialize makes `chat_` itself throw; every other
failure is contained. `stringifySchema` models that `JSON.stringify`. -/
def chatInternal (debug : Bool)
    (stringifySchema : JsonSchema π → Option String)
    (stringify : α → Option String)
    (message : String) (jsonSchema : Option (JsonSchema π))
    (sendOutcome : Except String (ConverseCommandOutput α)) :
    Except String (String × Ids) :=
  if message = "" then .ok ("", Ids.empty)
  else
    match debug, jsonSchema with
    | true, some js =>
      match stringifySchema js with
      | none => .error "TypeError: Converting circular structure to JSON"
      | some _ => .ok (chatBody stringify sendOutcome)
    | _, _ => .ok (chatBody stringify sendOutcome)

/-- The public `chat` (bot.ts lines 37-49): `res` starts as the empty
result, is replaced by the value of `chat_` on success, and is returned
unchanged when `chat_` throws. -/
def chat (debug : Bool)
    (stringifySchema : JsonSchema π → Option String)
    (stringify : α → Option String)
    (message : String) (jsonSchema : Option (JsonSchema π))
    (sendOutcome : Except String (ConverseCommandOutput α)) : String × Ids :=
  match chatInternal debug stringifySchema stringify message jsonSchema sendOutcome with
  | .ok res => res
  | .error _ => ("", Ids.empty)

/-- A pure-text content item. -/
def textItem (t : String) : ContentItem α := ⟨some t, none⟩

/-- A tool-use content item carrying the input payload `u`. -/
def toolItem (u : α) : ContentItem α := ⟨none, some u⟩

/-- A response whose single message carries exactly `items` as content and
the given correlation identifiers. -/
def mkResponse (items : List (ContentItem α)) (meta : ResponseMetadata) :
    ConverseCommandOutput α :=
  ⟨some ⟨some ⟨some items⟩⟩, meta⟩

/-! ## sopRetriever.ts

Type parameters: `E` is the encoder pipeline handle, `PC` the Pinecone
client, `I` the Pinecone index handle, `M` the metadata record of a match.
The module-level mutable bindings `embedder`, `pineconeClient` and
`pineconeIndex` become an explicit state record threaded through the
functions. -/

/-- The three module-level singletons of sopRetriever.ts, all `null`
initially. -/
structure RetrieverState (E PC I : Type) where
  embedder : Option E
  pineconeClient : Option PC
  pineconeIndex : Option I
deriving Repr, DecidableEq

/-- The fresh module state: all three bindings `null`. -/
def RetrieverState.initial : RetrieverState E PC I := ⟨none, none, none⟩

/-- The three `getInput` reads of `initializePinecone`; `getInput` yields
the empty string for an unset input. -/
structure PineconeInputs where
  apiKey : String
  host : String
  indexName : String
deriving Repr, DecidableEq

/-- The regex `^([^.]+)\.svc\.` applied to the host (sopRetriever.ts line
45): the captured group is the maximal non-empty dot-free prefix, and the
match requires it to be followed by the literal `.svc.`. -/
def extractIndexName (host : String) : Option String :=
  let pre := host.takeWhile (fun c => c ≠ '.')
  if pre ≠ "" && (host.drop pre.length).startsWith ".svc." then some pre
  else none

/-- Index-name resolution (sopRetriever.ts lines 42-52): the explicit
`pinecone_index` input if non-empty, else the name extracted from a
non-empty host, else the fixed default `sop-embeddings`. -/
def resolveIndexName (inp : PineconeInputs) : String :=
  let fromHost :=
    if inp.indexName = "" && inp.host ≠ "" then
      (extractIndexName inp.host).getD ""
    else inp.indexName
  if fromHost = "" then "sop-embeddings" else fromHost

/-- Function `initializePinecone` (sopRetriever.ts lines 35-73). A non-null client
makes it a no-op. Otherwise the inputs are read, the index name resolved,
and a missing API key throws before the client is constructed. The client
constructor (`ctorClient`, modelling `new Pinecone({apiKey})`) and then the
index accessor (`ctorIndex`, modelling `pineconeClient.index(indexName)`)
run inside a try block whose catch logs and rethrows; the client binding is
assigned before the index accessor runs, so an index-accessor failure
leaves the client set but the index `null`. -/
def initializePinecone (inp : PineconeInputs)
    (ctorClient : Except String PC) (ctorIndex : PC → String → Except String I)
    (st : RetrieverState E PC I) :
    Except String Unit × RetrieverState E PC I :=
  match st.pineconeClient with
  | some _ => (.ok (), st)
  | none =>
    let indexName := resolveIndexName inp
    if inp.apiKey = "" then
      (.error "PINECONE_API_KEY environment variable is not set", st)
    else
      match ctorClient with
      | .error e => (.error e, st)
      | .ok c =>
        let st1 := { st with pineconeClient := some c }
        match ctorIndex c indexName with
        | .error e => (.error e, st1)
        | .ok idx => (.ok (), { st1 with pineconeIndex := some idx })

/-- Function `initializeEmbedder` (sopRetriever.ts lines 19-30): with a non-null
embedder it is a no-op; otherwise the pipeline constructor runs, its result
is assigned on success, and its failure is logged and rethrown with the
singleton left `null`. -/
def initializeEmbedder (ctor : Except String E)
    (st : RetrieverState E PC I) :
    Except String Unit × RetrieverState E PC I :=
  match st.embedder with
  | some _ => (.ok (), st)
  | none =>
    match ctor with
    | .ok e => (.ok (), { st with embedder := some e })
    | .error err => (.error err, st)

/-- The closed set of shapes the raw encoder output may take
(sopRetriever.ts lines 92-106): a `.data` typed-array, a plain array, a
`.tolist()` method, or the fallback `Array.from(output.data || output)`
whose own outcome may throw. -/
inductive EncoderOutput where
  | withData (data : List ℚ)
  | plainArray (xs : List ℚ)
  | withTolist (xs : List ℚ)
  | fallback (conv : Except String (List ℚ))
deriving Repr

/-- The shape dispatch of `embedText`: each recognized shape converts to a
plain list of numbers; only the fallback conversion can throw. -/
def EncoderOutput.toVector : EncoderOutput → Except String (List ℚ)
  | .withData d => .ok d
  | .plainArray xs => .ok xs
  | .withTolist xs => .ok xs
  | .fallback conv => conv

/-- Function `embedText` (sopRetriever.ts lines 79-119): initialize the embedder
(a construction failure is rethrown by the outer catch), guard against a
still-null embedder, run the encoder (`run`, modelling
`embedder(text, {pooling: mean, normalize: true})`), convert the output
shape, warn — without rejecting — on a length other than 384, and return
the vector. The outer catch logs and rethrows every failure. -/
def embedText (ctor : Except String E)
    (run : E → String → Except String EncoderOutput) (text : String)
    (st : RetrieverState E PC I) :
    Except String (List ℚ) × RetrieverState E PC I :=
  match initializeEmbedder ctor st with
  | (.error e, st') => (.error e, st')
  | (.ok _, st') =>
    match st'.embedder with
    | none => (.error "Embedder not initialized", st')
    | some emb =>
      match run emb text with
      | .error e => (.error e, st')
      | .ok out =>
        match out.toVector with
        | .error e => (.error e, st')
        | .ok vector => (.ok vector, st')

/-- One Pinecone match `{id, score, metadata}`; `score` and `metadata` are
optional in the SDK record type. -/
structure PineconeMatch (M : Type) where
  id : String
  score : Option ℚ
  metadata : Option M
deriving Repr, DecidableEq

/-- A Pinecone query response; `matches` may be absent. (`matches` is a
reserved word in Lean, hence the guillemets.) -/
structure QueryResponse (M : Type) where
  «matches» : Option (List (PineconeMatch M))
deriving Repr, DecidableEq

/-- The `SOP` interface of sopRetriever.ts. -/
structure SOP (M : Type) where
  text : String
  id : Option String := none
  score : Option ℚ := none
  metadata : Option M := none
deriving Repr, DecidableEq

/-- The match-to-SOP mapping (sopRetriever.ts lines 153-161):
`text` is the JS or-fallback of `match.metadata?.text` with the empty
string (an absent metadata record, an absent `text` field and an empty
`text` all collapse to the empty string), `id`,
`score` and `metadata` are copied. `textOf` models the `.text` field access
on the abstract metadata record. -/
def matchToSop (textOf : M → Option String) (m : PineconeMatch M) : SOP M :=
  { text := if jsTruthy (m.metadata.bind textOf) then (m.metadata.bind textOf).getD "" else ""
    id := some m.id
    score := m.score
    metadata := m.metadata }

/-- Function `getRelevantSops` (sopRetriever.ts lines 125-173): initialize Pinecone,
bail out with `[]` on a still-null index, embed the diff chunk, query the
index with `topK := 3`, and map the matches to SOPs; the surrounding catch
collapses every thrown failure to `[]`. `query` models
`pineconeIndex.query({vector, topK, includeMetadata: true})`. -/
def getRelevantSops
    (inp : PineconeInputs)
    (ctorClient : Except String PC) (ctorIndex : PC → String → Except String I)
    (embedCtor : Except String E)
    (embedRun : E → String → Except String EncoderOutput)
    (query : I → List ℚ → Nat → Except String (QueryResponse M))
    (textOf : M → Option String)
    (diffChunk : String) (st : RetrieverState E PC I) :
    List (SOP M) × RetrieverState E PC I :=
  match initializePinecone inp ctorClient ctorIndex st with
  | (.error _, st1) => ([], st1)
  | (.ok _, st1) =>
    match st1.pineconeIndex with
    | none => ([], st1)
    | some idx =>
      match embedText embedCtor embedRun diffChunk st1 with
      | (.error _, st2) => ([], st2)
      | (.ok vector, st2) =>
        match query idx vector 3 with
        | .error _ => ([], st2)
        | .ok resp =>
          match resp.«matches» with
          | none => ([], st2)
          | some [] => ([], st2)
          | some ms => (ms.map (matchToSop textOf), st2)

/-- The decimal digit character for `n % 10`. -/
def decimalDigit (n : ℕ) : Char := Nat.digitChar (n % 10)

/-- Model of `score.toFixed(3)`: the score — a JS number, modelled as `ℚ` — rendered
with exactly three digits after the decimal point, rounding to the nearest
thousandth. The sign, the integer part and then the three fractional
digits of `|score|` rounded to thousandths. -/
def toFixed3 (q : ℚ) : String :=
  let sign := if q < 0 then "-" else ""
  let m : ℕ := (round (|q| * 1000) : ℤ).toNat
  sign ++ toString (m / 1000) ++ "." ++
    String.mk [decimalDigit (m / 100), decimalDigit (m / 10), decimalDigit m]

/-- The template literal for one SOP entry (sopRetriever.ts lines 185-187):
a 1-based ordinal heading, an `(ID: ...)` suffix when `sop.id` is truthy
(present and non-empty), a `(relevance: ...)` suffix when `sop.score` is
not undefined, a blank line, then the SOP text. -/
def sopEntry (sop : SOP M) (index : ℕ) : String :=
  "### Relevant SOP " ++ toString (index + 1) ++
    (if jsTruthy sop.id then " (ID: " ++ sop.id.getD "" ++ ")" else "") ++
    (match sop.score with
     | some sc => " (relevance: " ++ toFixed3 sc ++ ")"
     | none => "") ++
    "\n\n" ++ sop.text

/-- The list of rendered entries, in order, with their 0-based indices
(the `.map((sop, index) => ...)` of sopRetriever.ts line 184). -/
def sopEntries (sops : List (SOP M)) : List String :=
  (List.range sops.length).zip sops |>.map (fun p => sopEntry p.2 p.1)

/-- Function `formatSopsForPrompt` (sopRetriever.ts lines 178-196): the empty list
yields the empty string; otherwise the entries are joined by a blank line and wrapped
in the fixed `<relevant_sops>` delimiter tags. -/
def formatSopsForPrompt (sops : List (SOP M)) : String :=
  if sops.length = 0 then ""
  else
    let sopTexts := String.intercalate "\n\n" (sopEntries sops)
    "\n<relevant_sops>\n" ++ sopTexts ++ "\n</relevant_sops>\n"

/-! ## Helper lemmas -/

/-- Folding the normalization step over a trailing tool-call item whose
payload serializes to `s` yields `s`, whatever came before. -/
lemma foldl_processContentItem_tool (stringify : α → Option String)
    (acc : String) (items : List (ContentItem α)) (u : α) (s : String)
    (hs : stringify u = some s) :
    List.foldl (processContentItem stringify) acc (items ++ [toolItem u]) = s := by
  rw [List.foldl_append]
  simp [processContentItem, toolItem, jsTruthy, hs]

/-- The normalization step on a pure-text item appends the fragment, both
for empty (skipped by the truthiness test, appending nothing) and
non-empty fragments. -/
lemma processContentItem_text (stringify : α → Option String)
    (acc : String) (t : String) :
    processContentItem stringify acc (textItem t) = acc ++ t := by
  by_cases h : t = "" <;>
    simp [processContentItem, textItem, jsTruthy, h]

/-- Lemma: `String.join` distributes over cons. -/
lemma string_join_cons (t : String) (ts : List String) :
    String.join (t :: ts) = t ++ String.join ts := by
  rcases t with ⟨d⟩
  simp [String.join_eq, String.append]
  rfl

/-- Folding the normalization step over a list of pure-text items appends
their in-order concatenation to the accumulator. -/
lemma foldl_processContentItem_texts (stringify : α → Option String)
    (ts : List String) : ∀ acc : String,
    List.foldl (processContentItem stringify) acc (ts.map textItem)
      = acc ++ String.join ts := by
  induction ts with
  | nil => intro acc; simp [String.join]
  | cons t ts ih =>
    intro acc
    simp only [List.map_cons, List.foldl_cons, processContentItem_text]
    rw [ih (acc ++ t), string_join_cons, String.append_assoc]

/-- With a non-empty message, debug mode off and a successful send, `chat`
returns the normalized content text together with the response metadata
identifiers. -/
lemma chat_ok_normalizes (stringifySchema : JsonSchema π → Option String)
    (stringify : α → Option String) (message : String)
    (jsonSchema : Option (JsonSchema π)) (items : List (ContentItem α))
    (meta : ResponseMetadata) (hm : message ≠ "") :
    chat false stringifySchema stringify message jsonSchema
        (.ok (mkResponse items meta))
      = (normalizeContent stringify items, ⟨meta.requestId, meta.cfId⟩) := by
  unfold chat chatInternal
  rw [if_neg hm]
  rfl

/-! ## Claim theorems for bot.ts -/

/-- C1: for every message string and every optional JSON schema, the public
chat operation never raises to its caller: whenever any internal step
throws — the private `chat_` evaluates to an error — `chat` returns a
result with empty text and both correlation identifiers absent. -/
theorem chat_error_yields_empty_result
    (debug : Bool) (stringifySchema : JsonSchema π → Option String)
    (stringify : α → Option String) (message : String)
    (jsonSchema : Option (JsonSchema π))
    (sendOutcome : Except String (ConverseCommandOutput α)) (e : String)
    (h : chatInternal debug stringifySchema stringify message jsonSchema
        sendOutcome = .error e) :
    chat debug stringifySchema stringify message jsonSchema sendOutcome
      = ("", Ids.empty) := by
  unfold chat
  rw [h]

/-- Witness for C1: debug mode on and a schema whose serialization throws
make the private `chat_` fail; `chat` still returns the empty result. -/
theorem chat_error_yields_empty_result_witness :
    chatInternal true (fun _ : JsonSchema Unit => (none : Option String))
        (fun _ : Unit => (none : Option String)) "hello" (some ⟨"n", "d", ()⟩)
        (.error "network")
      = .error "TypeError: Converting circular structure to JSON" ∧
    chat true (fun _ : JsonSchema Unit => (none : Option String))
        (fun _ : Unit => (none : Option String)) "hello" (some ⟨"n", "d", ()⟩)
        (.error "network") = ("", Ids.empty) :=
  ⟨rfl, chat_error_yields_empty_result _ _ _ _ _ _ _ rfl⟩

/-- C3: content items are normalized strictly in response order and a
the serialized input payload of a tool-call item replaces the accumulated
text:
for content that is any items followed by a text item and then a tool-call
item whose payload serializes to `s`, the invoke result text is `s`, the
preceding text discarded. -/
theorem invoke_toolcall_replaces_text
    (stringifySchema : JsonSchema π → Option String)
    (stringify : α → Option String) (message : String)
    (jsonSchema : Option (JsonSchema π)) (items : List (ContentItem α))
    (t : String) (u : α) (s : String) (meta : ResponseMetadata)
    (hm : message ≠ "") (hs : stringify u = some s) :
    (chat false stringifySchema stringify message jsonSchema
        (.ok (mkResponse (items ++ [textItem t, toolItem u]) meta))).1 = s := by
  rw [chat_ok_normalizes _ _ _ _ _ _ hm]
  show normalizeContent stringify (items ++ [textItem t, toolItem u]) = s
  unfold normalizeContent
  rw [show items ++ [textItem t, toolItem u]
      = (items ++ [textItem t]) ++ [toolItem u] by simp]
  exact foldl_processContentItem_tool stringify "" _ u s hs

/-- Witness for C3: a text fragment followed by a tool call whose payload
serializes to `payload`; the result text is `payload`. -/
theorem invoke_toolcall_replaces_text_witness :
    ("msg" ≠ ("" : String)) ∧
    ((fun _ : Unit => (some "payload" : Option String)) () = some "payload") ∧
    (chat false (fun _ : JsonSchema Unit => (none : Option String))
        (fun _ : Unit => (some "payload" : Option String)) "msg" none
        (.ok (mkResponse ([] ++ [textItem "before", toolItem ()])
          ⟨some "r", some "c"⟩))).1
      = "payload" :=
  ⟨by decide, rfl,
    invoke_toolcall_replaces_text _ _ _ _ ([] : List (ContentItem Unit))
      "before" () _ _ (by decide) rfl⟩

/-- C6: for every response whose content consists only of text items, the
invoke result text equals their in-order concatenation. -/
theorem invoke_concatenates_text_items
    (stringifySchema : JsonSchema π → Option String)
    (stringify : α → Option String) (message : String)
    (jsonSchema : Option (JsonSchema π)) (ts : List String)
    (meta : ResponseMetadata) (hm : message ≠ "") :
    (chat false stringifySchema stringify message jsonSchema
        (.ok (mkResponse (ts.map textItem) meta))).1 = String.join ts := by
  rw [chat_ok_normalizes _ _ _ _ _ _ hm]
  show normalizeContent stringify (ts.map textItem) = String.join ts
  unfold normalizeContent
  rw [foldl_processContentItem_texts]
  simp

/-- Witness for C6 on the fragments `["a", "", "bc"]`. -/
theorem invoke_concatenates_text_items_witness :
    ("m" ≠ ("" : String)) ∧
    (chat false (fun _ : JsonSchema Unit => (none : Option String))
        (fun _ : Unit => (none : Option String)) "m" none
        (.ok (mkResponse (["a", "", "bc"].map (textItem (α := Unit)))
          ⟨none, none⟩))).1
      = String.join ["a", "", "bc"] :=
  ⟨by decide,
    invoke_concatenates_text_items _ _ _ _ ["a", "", "bc"] _ (by decide)⟩

/-- C7: a tool-call payload whose serialization fails sets the accumulated
normalization text to the empty string; normalization is a total function
of the content, so no exception propagates from that step. -/
theorem normalization_serialization_failure_empties
    (stringify : α → Option String) (items : List (ContentItem α)) (u : α)
    (hu : stringify u = none) :
    normalizeContent stringify (items ++ [toolItem u]) = "" := by
  unfold normalizeContent
  rw [List.foldl_append]
  simp [processContentItem, toolItem, jsTruthy, hu]

/-- Witness for C7: accumulated text `ab` is discarded when the trailing
tool call fails to serialize. -/
theorem normalization_serialization_failure_empties_witness :
    ((fun _ : Unit => (none : Option String)) () = none) ∧
    normalizeContent (fun _ : Unit => (none : Option String))
      ([textItem "ab"] ++ [toolItem ()]) = "" :=
  ⟨rfl,
    normalization_serialization_failure_empties _ [textItem "ab"] () rfl⟩

/-- C10: text items appearing after the last tool-call item are appended to
the serialized payload of that tool-call rather than discarded: a tool-call item
followed by a text item yields the serialized input concatenated with the
later fragment. -/
theorem invoke_text_after_toolcall_appended
    (stringifySchema : JsonSchema π → Option String)
    (stringify : α → Option String) (message : String)
    (jsonSchema : Option (JsonSchema π)) (u : α) (s t : String)
    (meta : ResponseMetadata) (hm : message ≠ "") (hs : stringify u = some s) :
    (chat false stringifySchema stringify message jsonSchema
        (.ok (mkResponse [toolItem u, textItem t] meta))).1 = s ++ t := by
  rw [chat_ok_normalizes _ _ _ _ _ _ hm]
  show normalizeContent stringify [toolItem u, textItem t] = s ++ t
  unfold normalizeContent
  simp only [List.foldl_cons, List.foldl_nil]
  rw [show processContentItem stringify "" (toolItem u) = s from by
    simp [processContentItem, toolItem, jsTruthy, hs]]
  exact processContentItem_text stringify s t

/-- Witness for C10: tool payload serialized to `payload` followed by the
fragment `tail` yields `payloadtail`. -/
theorem invoke_text_after_toolcall_appended_witness :
    ("m" ≠ ("" : String)) ∧
    ((fun _ : Unit => (some "payload" : Option String)) () = some "payload") ∧
    (chat false (fun _ : JsonSchema Unit => (none : Option String))
        (fun _ : Unit => (some "payload" : Option String)) "m" none
        (.ok (mkResponse [toolItem (), textItem "tail"] ⟨none, none⟩))).1
      = "payload" ++ "tail" :=
  ⟨by decide, rfl,
    invoke_text_after_toolcall_appended _ _ _ _ () _ _ _ (by decide) rfl⟩

/-! ## Claim theorems for sopRetriever.ts -/

/-- C5: with the client singleton still `null` and no access credential
configured, `initializePinecone` raises immediately: the configuration
error is returned (not swallowed), the state is unchanged, and the outcome
does not depend on the client constructor or the index accessor — no
network call is attempted. -/
theorem initializePinecone_missing_credential
    (inp : PineconeInputs) (ctorClient ctorClient' : Except String PC)
    (ctorIndex ctorIndex' : PC → String → Except String I)
    (st : RetrieverState E PC I)
    (hclient : st.pineconeClient = none) (hkey : inp.apiKey = "") :
    initializePinecone inp ctorClient ctorIndex st
      = (.error "PINECONE_API_KEY environment variable is not set", st) ∧
    initializePinecone inp ctorClient ctorIndex st
      = initializePinecone inp ctorClient' ctorIndex' st := by
  unfold initializePinecone
  rw [hclient]
  simp [hkey]

/-- Witness for C5: fresh state, empty API key; the error is raised and
the outcome ignores whether the external constructors would succeed or
fail. -/
theorem initializePinecone_missing_credential_witness :
    ((RetrieverState.initial : RetrieverState Unit Unit Unit).pineconeClient
        = none) ∧
    ((⟨"", "name.svc.host", ""⟩ : PineconeInputs).apiKey = "") ∧
    (initializePinecone ⟨"", "name.svc.host", ""⟩ (.ok ()) (fun _ _ => .ok ())
        (RetrieverState.initial : RetrieverState Unit Unit Unit)
       = (.error "PINECONE_API_KEY environment variable is not set",
          RetrieverState.initial) ∧
     initializePinecone ⟨"", "name.svc.host", ""⟩ (.ok ()) (fun _ _ => .ok ())
        (RetrieverState.initial : RetrieverState Unit Unit Unit)
       = initializePinecone ⟨"", "name.svc.host", ""⟩ (.error "down")
          (fun _ _ => .error "down") RetrieverState.initial) :=
  ⟨rfl, rfl, initializePinecone_missing_credential _ _ _ _ _ _ rfl rfl⟩

/-- C8: when encoder construction fails on a call to `embedText`, the
failure is raised to the caller and the embedder singleton remains `null`
(the whole state is unchanged), so the next call attempts construction
again from scratch: a subsequent call with a succeeding constructor
installs the encoder. -/
theorem embedText_construction_failure_not_poisoned
    (err : String) (run runNext : E → String → Except String EncoderOutput)
    (text textNext : String) (st : RetrieverState E PC I)
    (hemb : st.embedder = none) :
    (embedText (.error err) run text st).1 = .error err ∧
    (embedText (.error err) run text st).2 = st ∧
    ∀ enc : E,
      ((embedText (.ok enc) runNext textNext
          (embedText (.error err) run text st).2).2).embedder = some enc := by
  have hinit : initializeEmbedder (Except.error err) st
      = ((.error err : Except String Unit), st) := by
    unfold initializeEmbedder
    rw [hemb]
  have hfail : embedText (.error err) run text st
      = ((.error err : Except String (List ℚ)), st) := by
    unfold embedText
    rw [hinit]
  refine ⟨by rw [hfail], by rw [hfail], ?_⟩
  intro enc
  rw [hfail]
  have hinit2 : initializeEmbedder (Except.ok enc) st
      = ((.ok () : Except String Unit), { st with embedder := some enc }) := by
    unfold initializeEmbedder
    rw [hemb]
  unfold embedText
  rw [hinit2]
  cases hr : runNext enc textNext with
  | error e => simp [hr]
  | ok out =>
    cases hv : out.toVector with
    | error e => simp [hr, hv]
    | ok v => simp [hr, hv]

/-- Witness for C8: fresh state, constructor failure `boom` raised and the
embedder still `null`; a retry with a working constructor installs it. -/
theorem embedText_construction_failure_not_poisoned_witness :
    ((RetrieverState.initial : RetrieverState Unit Unit Unit).embedder
        = none) ∧
    (embedText (.error "boom") (fun _ _ => .ok (.plainArray [])) "q"
        (RetrieverState.initial : RetrieverState Unit Unit Unit)).1
      = .error "boom" ∧
    ((embedText (.ok ()) (fun _ _ => .ok (.plainArray [])) "q2"
        (embedText (.error "boom") (fun _ _ => .ok (.plainArray [])) "q"
          (RetrieverState.initial : RetrieverState Unit Unit Unit)).2).2).embedder
      = some () :=
  ⟨rfl,
    (embedText_construction_failure_not_poisoned "boom"
      (fun _ _ => .ok (.plainArray [])) (fun _ _ => .ok (.plainArray []))
      "q" "q2" RetrieverState.initial rfl).1,
    (embedText_construction_failure_not_poisoned "boom"
      (fun _ _ => .ok (.plainArray [])) (fun _ _ => .ok (.plainArray []))
      "q" "q2" RetrieverState.initial rfl).2.2 ()⟩

/-- Characterization of `getRelevantSops`: either the result is `[]`, or
the whole success chain went through — initialization succeeded, the index
handle is set, embedding succeeded, the query succeeded with a non-empty
match list — and the result is the match list mapped through `matchToSop`. -/
lemma getRelevantSops_spec
    (inp : PineconeInputs)
    (ctorClient : Except String PC) (ctorIndex : PC → String → Except String I)
    (embedCtor : Except String E)
    (embedRun : E → String → Except String EncoderOutput)
    (query : I → List ℚ → Nat → Except String (QueryResponse M))
    (textOf : M → Option String) (diffChunk : String)
    (st : RetrieverState E PC I) :
    (getRelevantSops inp ctorClient ctorIndex embedCtor embedRun query
        textOf diffChunk st).1 = []
    ∨ ∃ st1 idx vector st2 resp ms,
        initializePinecone inp ctorClient ctorIndex st = (.ok (), st1)
        ∧ st1.pineconeIndex = some idx
        ∧ embedText embedCtor embedRun diffChunk st1 = (.ok vector, st2)
        ∧ query idx vector 3 = .ok resp
        ∧ resp.«matches» = some ms ∧ ms ≠ []
        ∧ (getRelevantSops inp ctorClient ctorIndex embedCtor embedRun query
            textOf diffChunk st).1 = ms.map (matchToSop textOf) := by
  rcases hinit : initializePinecone inp ctorClient ctorIndex st with ⟨res, st1⟩
  cases res with
  | error e => left; simp only [getRelevantSops, hinit]
  | ok u =>
    cases u
    cases hidx : st1.pineconeIndex with
    | none => left; simp only [getRelevantSops, hinit, hidx]
    | some idx =>
      rcases hemb : embedText embedCtor embedRun diffChunk st1 with ⟨eres, st2⟩
      cases eres with
      | error e => left; simp only [getRelevantSops, hinit, hidx, hemb]
      | ok vector =>
        cases hquery : query idx vector 3 with
        | error e => left; simp only [getRelevantSops, hinit, hidx, hemb, hquery]
        | ok resp =>
          cases hms : resp.«matches» with
          | none => left; simp only [getRelevantSops, hinit, hidx, hemb, hquery, hms]
          | some ms =>
            cases ms with
            | nil => left; simp only [getRelevantSops, hinit, hidx, hemb, hquery, hms]
            | cons m rest =>
              right
              refine ⟨st1, idx, vector, st2, resp, m :: rest,
                rfl, hidx, hemb, hquery, hms, by simp,
                by simp only [getRelevantSops, hinit, hidx, hemb, hquery, hms]⟩

/-- C2: for every query text, `getRelevantSops` returns the empty list —
and, being a total function, does not raise — whenever any step fails:
index-client initialization throws, the index handle never became
available, embedding throws, or the index query throws. -/
theorem getRelevantSops_empty_on_failure
    (inp : PineconeInputs)
    (ctorClient : Except String PC) (ctorIndex : PC → String → Except String I)
    (embedCtor : Except String E)
    (embedRun : E → String → Except String EncoderOutput)
    (query : I → List ℚ → Nat → Except String (QueryResponse M))
    (textOf : M → Option String) (diffChunk : String)
    (st : RetrieverState E PC I)
    (h : (∃ e st1, initializePinecone inp ctorClient ctorIndex st
            = (.error e, st1))
       ∨ (initializePinecone inp ctorClient ctorIndex st).2.pineconeIndex
            = none
       ∨ (∃ e st2, embedText embedCtor embedRun diffChunk
            (initializePinecone inp ctorClient ctorIndex st).2
            = (.error e, st2))
       ∨ (∀ idx v, ∃ e, query idx v 3 = .error e)) :
    (getRelevantSops inp ctorClient ctorIndex embedCtor embedRun query
        textOf diffChunk st).1 = [] := by
  rcases getRelevantSops_spec inp ctorClient ctorIndex embedCtor embedRun
      query textOf diffChunk st with h0 |
    ⟨st1, idx, vector, st2, resp, ms, hinit, hidx, hemb, hquery, hms, _, _⟩
  · exact h0
  · exfalso
    rcases h with ⟨e, st1', hfail⟩ | hnone | ⟨e, st2', hfail⟩ | hq
    · rw [hinit] at hfail
      simp at hfail
    · rw [hinit] at hnone
      rw [hidx] at hnone
      simp at hnone
    · rw [hinit] at hfail
      simp only at hfail
      rw [hemb] at hfail
      simp at hfail
    · rcases hq idx vector with ⟨e, hfail⟩
      rw [hquery] at hfail
      simp at hfail

/-- Witness for C2: missing API key makes initialization fail and the call
collapses to `[]`. -/
theorem getRelevantSops_empty_on_failure_witness :
    (initializePinecone ⟨"", "", ""⟩ (.ok ()) (fun _ _ => .ok ())
        (RetrieverState.initial : RetrieverState Unit Unit Unit)
      = (.error "PINECONE_API_KEY environment variable is not set",
         RetrieverState.initial)) ∧
    (getRelevantSops (M := Unit) ⟨"", "", ""⟩ (.ok ()) (fun _ _ => .ok ())
        (.ok ()) (fun _ _ => .ok (.plainArray [])) (fun _ _ _ => .ok ⟨some []⟩)
        (fun _ => some "t") "diff" RetrieverState.initial).1 = [] :=
  ⟨rfl,
    getRelevantSops_empty_on_failure _ _ _ _ _ _ _ _ _
      (Or.inl ⟨"PINECONE_API_KEY environment variable is not set",
        RetrieverState.initial, rfl⟩)⟩

/-- C4: under the index contract that a query returns at most `topK`
matches, `getRelevantSops` returns at most 3 SOPs, and every returned SOP
is the image of one index match under the `matchToSop` mapping
(`text := metadata.text or ""`, `id := match.id`, `score := match.score`,
`metadata := match.metadata`). -/
theorem getRelevantSops_top3_mapped
    (inp : PineconeInputs)
    (ctorClient : Except String PC) (ctorIndex : PC → String → Except String I)
    (embedCtor : Except String E)
    (embedRun : E → String → Except String EncoderOutput)
    (query : I → List ℚ → Nat → Except String (QueryResponse M))
    (textOf : M → Option String) (diffChunk : String)
    (st : RetrieverState E PC I)
    (hq : ∀ idx v resp, query idx v 3 = .ok resp →
        (resp.«matches».getD []).length ≤ 3) :
    (getRelevantSops inp ctorClient ctorIndex embedCtor embedRun query
        textOf diffChunk st).1.length ≤ 3 ∧
    ∀ sop ∈ (getRelevantSops inp ctorClient ctorIndex embedCtor embedRun
        query textOf diffChunk st).1,
      ∃ m : PineconeMatch M, sop = matchToSop textOf m := by
  rcases getRelevantSops_spec inp ctorClient ctorIndex embedCtor embedRun
      query textOf diffChunk st with h0 |
    ⟨st1, idx, vector, st2, resp, ms, hinit, hidx, hemb, hquery, hms, hne, heq⟩
  · rw [h0]
    exact ⟨by simp, by simp⟩
  · rw [heq]
    constructor
    · rw [List.length_map]
      have := hq idx vector resp hquery
      rw [hms] at this
      simpa using this
    · intro sop hsop
      rcases List.mem_map.mp hsop with ⟨m, _, hm⟩
      exact ⟨m, hm.symm⟩

/-- Witness for C4: a seeded index returning one match; the call returns
one SOP, the image of that match. -/
theorem getRelevantSops_top3_mapped_witness :
    (∀ (idx : Unit) (v : List ℚ) (resp : QueryResponse Unit),
        (fun (_ : Unit) (_ : List ℚ) (_ : Nat) =>
            (.ok ⟨some [⟨"sop1", some (1/2 : ℚ), none⟩]⟩ :
              Except String (QueryResponse Unit))) idx v 3 = .ok resp →
        (resp.«matches».getD []).length ≤ 3) ∧
    ((getRelevantSops (M := Unit) ⟨"key", "", "sops"⟩ (.ok ())
        (fun _ _ => .ok ()) (.ok ()) (fun _ _ => .ok (.plainArray []))
        (fun _ _ _ => .ok ⟨some [⟨"sop1", some (1/2 : ℚ), none⟩]⟩)
        (fun _ => some "t") "diff" RetrieverState.initial).1.length ≤ 3 ∧
     ∀ sop ∈ (getRelevantSops (M := Unit) ⟨"key", "", "sops"⟩ (.ok ())
        (fun _ _ => .ok ()) (.ok ()) (fun _ _ => .ok (.plainArray []))
        (fun _ _ _ => .ok ⟨some [⟨"sop1", some (1/2 : ℚ), none⟩]⟩)
        (fun _ => some "t") "diff" RetrieverState.initial).1,
      ∃ m : PineconeMatch Unit, sop = matchToSop (fun _ => some "t") m) := by
  have hcontract : ∀ (idx : Unit) (v : List ℚ) (resp : QueryResponse Unit),
      (fun (_ : Unit) (_ : List ℚ) (_ : Nat) =>
          (.ok ⟨some [⟨"sop1", some (1/2 : ℚ), none⟩]⟩ :
            Except String (QueryResponse Unit))) idx v 3 = .ok resp →
      (resp.«matches».getD []).length ≤ 3 := by
    intro idx v resp hresp
    injection hresp with h2
    rw [← h2]
    simp
  exact ⟨hcontract,
    getRelevantSops_top3_mapped _ _ _ _ _ _ _ _ _ hcontract⟩

/-- Each character produced by `decimalDigit` is a decimal digit. -/
lemma decimalDigit_isDigit (n : ℕ) : (decimalDigit n).isDigit = true := by
  have h10 : ∀ k : Fin 10, (Nat.digitChar k.val).isDigit = true := by decide
  have h : n % 10 < 10 := Nat.mod_lt _ (by norm_num)
  exact h10 ⟨n % 10, h⟩

/-- Lemma: `toFixed3` always renders an integer part, a decimal point, and exactly
three decimal digit characters. -/
lemma toFixed3_three_decimals (q : ℚ) :
    ∃ intPart d1 d2 d3,
      toFixed3 q = intPart ++ "." ++ String.mk [d1, d2, d3]
        ∧ d1.isDigit = true ∧ d2.isDigit = true ∧ d3.isDigit = true := by
  refine ⟨(if q < 0 then "-" else "")
        ++ toString ((round (|q| * 1000) : ℤ).toNat / 1000),
    decimalDigit ((round (|q| * 1000) : ℤ).toNat / 100),
    decimalDigit ((round (|q| * 1000) : ℤ).toNat / 10),
    decimalDigit ((round (|q| * 1000) : ℤ).toNat),
    ?_, decimalDigit_isDigit _, decimalDigit_isDigit _, decimalDigit_isDigit _⟩
  unfold toFixed3
  simp only [String.append_assoc]

/-- C9 counterexample: a SOP whose id is present but empty gets no
`(ID: ...)` suffix, so the suffix is not emitted "exactly when the SOP has
an id" — the code tests JS truthiness, not presence. -/
theorem formatSops_id_suffix_counterexample :
    ((⟨"guidance", some "", none, none⟩ : SOP Unit).id.isSome = true) ∧
    formatSopsForPrompt [(⟨"guidance", some "", none, none⟩ : SOP Unit)]
      = "\n<relevant_sops>\n### Relevant SOP 1\n\nguidance\n</relevant_sops>\n" ∧
    formatSopsForPrompt [(⟨"guidance", some "", none, none⟩ : SOP Unit)]
      ≠ "\n<relevant_sops>\n### Relevant SOP 1 (ID: )\n\nguidance\n</relevant_sops>\n" := by
  refine ⟨rfl, by decide, by decide⟩

/-- C9 (amended): `format` of the empty list is the empty string with no
delimiter tags; for a non-empty list the output is the entries joined by a
blank line and wrapped in the fixed delimiter tags, with exactly one entry
per SOP, entry `i` carrying the 1-based ordinal heading, an `(ID: ...)`
suffix exactly when the SOP has a non-empty id, and a `(relevance: ...)`
suffix — the score rendered with exactly three decimal digits — exactly
when it has a score. -/
theorem formatSops_structure (sops : List (SOP M)) (hne : sops ≠ []) :
    formatSopsForPrompt ([] : List (SOP M)) = ""
    ∧ formatSopsForPrompt sops
        = "\n<relevant_sops>\n"
          ++ String.intercalate "\n\n" (sopEntries sops)
          ++ "\n</relevant_sops>\n"
    ∧ (sopEntries sops).length = sops.length
    ∧ (∀ i (hi : i < sops.length) (he : i < (sopEntries sops).length),
        (sopEntries sops).get ⟨i, he⟩
          = "### Relevant SOP " ++ toString (i + 1)
            ++ (match (sops.get ⟨i, hi⟩).id with
                | some idStr =>
                  if idStr = "" then "" else " (ID: " ++ idStr ++ ")"
                | none => "")
            ++ (match (sops.get ⟨i, hi⟩).score with
                | some sc => " (relevance: " ++ toFixed3 sc ++ ")"
                | none => "")
            ++ "\n\n" ++ (sops.get ⟨i, hi⟩).text)
    ∧ (∀ q : ℚ, ∃ intPart d1 d2 d3,
        toFixed3 q = intPart ++ "." ++ String.mk [d1, d2, d3]
          ∧ d1.isDigit = true ∧ d2.isDigit = true ∧ d3.isDigit = true) := by
  refine ⟨rfl, ?_, ?_, ?_, fun q => toFixed3_three_decimals q⟩
  · have hlen : ¬ sops.length = 0 := by
      simpa [List.length_eq_zero] using hne
    simp only [formatSopsForPrompt, if_neg hlen]
  · simp [sopEntries]
  · intro i hi he
    have h1 : (sopEntries sops).get ⟨i, he⟩ = sopEntry (sops.get ⟨i, hi⟩) i := by
      simp [sopEntries, List.get_eq_getElem, List.getElem_map, List.getElem_zip,
        List.getElem_range]
    rw [h1]
    unfold sopEntry
    rcases hid : (sops.get ⟨i, hi⟩).id with _ | idStr
    · simp [jsTruthy, hid]
    · by_cases hempty : idStr = "" <;> simp [jsTruthy, hid, hempty]

/-- Witness for C9 (amended) on a concrete two-SOP list: one SOP with id
and score, one with an empty id and no score. -/
theorem formatSops_structure_witness :
    (([⟨"do X", some "id1", some (1/2 : ℚ), none⟩,
       ⟨"do Y", some "", none, none⟩] : List (SOP Unit)) ≠ []) ∧
    (formatSopsForPrompt ([] : List (SOP Unit)) = ""
     ∧ formatSopsForPrompt
          ([⟨"do X", some "id1", some (1/2 : ℚ), none⟩,
            ⟨"do Y", some "", none, none⟩] : List (SOP Unit))
        = "\n<relevant_sops>\n"
          ++ String.intercalate "\n\n" (sopEntries
              ([⟨"do X", some "id1", some (1/2 : ℚ), none⟩,
                ⟨"do Y", some "", none, none⟩] : List (SOP Unit)))
          ++ "\n</relevant_sops>\n"
     ∧ (sopEntries ([⟨"do X", some "id1", some (1/2 : ℚ), none⟩,
            ⟨"do Y", some "", none, none⟩] : List (SOP Unit))).length
        = ([⟨"do X", some "id1", some (1/2 : ℚ), none⟩,
            ⟨"do Y", some "", none, none⟩] : List (SOP Unit)).length
     ∧ (∀ i (hi : i < ([⟨"do X", some "id1", some (1/2 : ℚ), none⟩,
            ⟨"do Y", some "", none, none⟩] : List (SOP Unit)).length)
          (he : i < (sopEntries ([⟨"do X", some "id1", some (1/2 : ℚ), none⟩,
            ⟨"do Y", some "", none, none⟩] : List (SOP Unit))).length),
        (sopEntries ([⟨"do X", some "id1", some (1/2 : ℚ), none⟩,
            ⟨"do Y", some "", none, none⟩] : List (SOP Unit))).get ⟨i, he⟩
          = "### Relevant SOP " ++ toString (i + 1)
            ++ (match (([⟨"do X", some "id1", some (1/2 : ℚ), none⟩,
                  ⟨"do Y", some "", none, none⟩] : List (SOP Unit)).get
                  ⟨i, hi⟩).id with
                | some idStr =>
                  if idStr = "" then "" else " (ID: " ++ idStr ++ ")"
                | none => "")
            ++ (match (([⟨"do X", some "id1", some (1/2 : ℚ), none⟩,
                  ⟨"do Y", some "", none, none⟩] : List (SOP Unit)).get
                  ⟨i, hi⟩).score with
                | some sc => " (relevance: " ++ toFixed3 sc ++ ")"
                | none => "")
            ++ "\n\n" ++ (([⟨"do X", some "id1", some (1/2 : ℚ), none⟩,
                  ⟨"do Y", some "", none, none⟩] : List (SOP Unit)).get
                  ⟨i, hi⟩).text)
     ∧ (∀ q : ℚ, ∃ intPart d1 d2 d3,
        toFixed3 q = intPart ++ "." ++ String.mk [d1, d2, d3]
          ∧ d1.isDigit = true ∧ d2.isDigit = true ∧ d3.isDigit = true)) :=
  ⟨List.cons_ne_nil _ _,
    formatSops_structure _ (List.cons_ne_nil _ _)⟩

end BedrockPrReviewer
